import Mathlib

/-!
Verification of the pose-to-wire encoding pipeline of
`src/ros2_aruco/ros2_aruco/aruco_node.py` (class `ArucoNode`).

The embedding below models the repository's own arithmetic exactly.
Positions and angles are carried as exact rationals (`ℚ`): the source
stores them in Python floats, and every claim under study concerns the
integer conversion and byte packing applied to those values, which the
rational embedding reproduces faithfully.  Calls into external libraries
(OpenCV marker detection, `cv2.aruco` attribute lookup, and the
`quaternion.as_euler_angles` decomposition) are inputs of the model: the
callback receives the detection result as data, and a `Pose` carries the
degree value of the second Euler component that `np.rad2deg(euler[1])`
would produce, since that trigonometric decomposition lives outside the
repository.
-/

/-- `np.int32(v)` applied to a float value `v` (lines 259, 261, 262 of
`aruco_node.py`): C-style float-to-integer conversion, i.e. truncation
toward zero.  On an exact rational this is t-division of the numerator
by the denominator. -/
def np_int32 (v : ℚ) : ℤ := v.num.tdiv v.den

/-- `x & 0xFF` on a signed integer (numpy int32 bitwise AND with a
nonnegative mask): the least nonnegative residue of `x` modulo 256.
`%` on `ℤ` is Euclidean mod, whose result lies in `[0, 256)`, exactly
matching two's-complement masking. -/
def mask8 (x : ℤ) : ℤ := x % 256

/-- `np.right_shift(x, 8)` / `x >> 8` on a signed integer: arithmetic
right shift, i.e. floor division by 256.  `/` on `ℤ` is Euclidean
division, which coincides with floor division for the positive
divisor 256. -/
def asr8 (x : ℤ) : ℤ := x / 256

/-- Lines 265-269 of `aruco_node.py`: the position frame `data_array1`
built from the quantized `position_x` and `position_z`,
`[0x02, (qx >> 8) & 0xFF, (qx + 128) & 0xFF, ((qz + 128) >> 8) & 0xFF,
qz & 0xFF]`. -/
def positionFrame (qx qz : ℤ) : List ℤ :=
  [0x02, mask8 (asr8 qx), mask8 (qx + 128), mask8 (asr8 (qz + 128)), mask8 qz]

/-- Lines 270-274 of `aruco_node.py`: the yaw frame `data_array2` built
from the angle `r`, `[0x03, (r >> 8) & 0xFF, r & 0xFF, 0x00, 0x00]`. -/
def yawFrame (r : ℤ) : List ℤ :=
  [0x03, mask8 (asr8 r), mask8 r, 0x00, 0x00]

/-- One marker's pose as used by the encoding loop (lines 253-279).
`px`, `py`, `pz` are `pose.position.{x,y,z}`.  `eulerDeg1` stands for
`np.rad2deg(quaternion.as_euler_angles(quat)[1])`, the degree value of
the second Euler component: the decomposition itself is performed by the
external `quaternion` library and is therefore an input of the model. -/
structure Pose where
  px : ℚ
  py : ℚ
  pz : ℚ
  eulerDeg1 : ℚ
  deriving DecidableEq, Repr

/-- Line 259: `r = 180 - np.int32(np.rad2deg(euler[1]))`. -/
def yaw_r (p : Pose) : ℤ := 180 - np_int32 p.eulerDeg1

/-- Line 261: `position_x = np.int32(pose.position.x * 100)`. -/
def position_x (p : Pose) : ℤ := np_int32 (p.px * 100)

/-- Line 262: `position_z = np.int32(pose.position.z * 100)`. -/
def position_z (p : Pose) : ℤ := np_int32 (p.pz * 100)

/-- Lines 254, 265-269: the payload of the first CAN publication for a
pose. -/
def data_array1 (p : Pose) : List ℤ := positionFrame (position_x p) (position_z p)

/-- Lines 255, 270-274: the payload of the second CAN publication for a
pose. -/
def data_array2 (p : Pose) : List ℤ := yawFrame (yaw_r p)

/-- Line 224: `marker_id in self.id_whitelist or len(self.id_whitelist) == 0`. -/
def passesFilter (wl : List ℤ) (i : ℤ) : Bool := wl.contains i || wl.isEmpty

/-- The accepted sublist of the detected `(marker_id, pose)` pairs, in
detection order (the loop of lines 223-241 appends to
`markers.marker_ids` / `pose_array.poses` exactly when the line-224 test
passes). -/
def acceptedOf (wl : List ℤ) (ds : List (ℤ × Pose)) : List (ℤ × Pose) :=
  ds.filter fun d => passesFilter wl d.1

/-- Observable actions of one `image_callback` invocation:
`detectRun` marks the `self.detector.detectMarkers` call (line 207),
`canFrame` a `self.can_pub.publish` with the given payload (lines 277,
279), `posesPub` the `self.poses_pub.publish(pose_array)` (line 280) and
`markersPub` the `self.markers_pub.publish(markers)` (line 281). -/
inductive Event where
  | detectRun
  | canFrame (data : List ℤ)
  | posesPub (poses : List Pose)
  | markersPub (ids : List ℤ) (poses : List Pose)
  deriving DecidableEq, Repr

/-- The cross-invocation state `image_callback` reads: whether a camera
info message has been stored by `info_callback` (`self.info_msg` etc.),
and the `id_whitelist` parameter. -/
structure NodeState where
  infoReceived : Bool
  idWhitelist : List ℤ
  deriving DecidableEq, Repr

/-- The body of the loop `for pose in pose_array.poses` (lines 253-279):
per pose, first the position payload is published, then the yaw
payload. -/
def wireEvents : List Pose → List Event
  | [] => []
  | p :: ps =>
    Event.canFrame (data_array1 p) :: Event.canFrame (data_array2 p) :: wireEvents ps

/-- `ArucoNode.image_callback` (lines 189-281) as a function from the
node state and the external detection result to the successor state and
the list of observable actions, in order.  `det = none` models
`detectMarkers` returning `marker_ids is None`; otherwise `det` carries
each detected marker's id together with the pose assembled from the
external pose-estimation output (lines 214-237).  The callback assigns
no `self` field, so the state is returned unchanged on every path. -/
def image_callback (st : NodeState) (det : Option (List (ℤ × Pose))) :
    NodeState × List Event :=
  if st.infoReceived = false then
    (st, [])
  else
    match det with
    | none => (st, [Event.detectRun])
    | some ds =>
      let acc := acceptedOf st.idWhitelist ds
      if 0 < acc.length then
        (st, Event.detectRun ::
          (wireEvents (acc.map Prod.snd) ++
            [Event.posesPub (acc.map Prod.snd),
             Event.markersPub (acc.map Prod.fst) (acc.map Prod.snd)]))
      else
        (st, [Event.detectRun])

/-- The accepted pairs for an optional detection result (`none` = no
markers detected). -/
def acceptedOfDet (wl : List ℤ) : Option (List (ℤ × Pose)) → List (ℤ × Pose)
  | none => []
  | some ds => acceptedOf wl ds

/-- Outcome of `cv2.aruco.__getattribute__(dictionary_id_name)` on
line 146 together with the line-147 type test: the name may be absent
(lookup raises `AttributeError`), present but not an aruco dictionary
constant (the `raise AttributeError` on line 148 fires, yet the local
`dictionary_id` stays bound to the looked-up value), or a valid
dictionary constant. -/
inductive AttrLookup where
  | absent
  | wrongType (v : ℤ)
  | dictId (v : ℤ)
  deriving DecidableEq, Repr

/-- Log messages of interest emitted by `ArucoNode.__init__`. -/
inductive LogMsg where
  | badDictId
  | validOptions
  deriving DecidableEq, Repr

/-- Python exceptions the constructor can die with. -/
inductive PyError where
  | unboundLocal
  | cvRaises
  deriving DecidableEq, Repr

/-- Whether a Python call completed or raised. -/
inductive PyResult where
  | ok
  | raises (e : PyError)
  deriving DecidableEq, Repr

/-- Logs produced by the `try`/`except` of lines 145-154: nothing for a
valid dictionary id, the `bad aruco_dictionary_id` error followed by the
`valid options` listing otherwise. -/
def tryBlockLogs : AttrLookup → List LogMsg
  | .dictId _ => []
  | _ => [LogMsg.badDictId, LogMsg.validOptions]

/-- Outcome of `ArucoNode.__init__` as far as the dictionary handling
is concerned. -/
structure InitOutcome where
  logs : List LogMsg
  result : PyResult
  deriving DecidableEq, Repr

/-- Lines 144-177 of `ArucoNode.__init__`: after the `try`/`except`
logging, execution always reaches line 175,
`dictionary = cv2.aruco.getPredefinedDictionary(dictionary_id)`.
When the attribute lookup raised, the local `dictionary_id` was never
assigned, so that line raises `UnboundLocalError`.  Otherwise
`getPredefinedDictionary` is an external cv2 call on the bound value,
modelled by the oracle `getPredef`. -/
def arucoInit (l : AttrLookup) (getPredef : ℤ → PyResult) : InitOutcome :=
  match l with
  | .absent => ⟨tryBlockLogs l, PyResult.raises PyError.unboundLocal⟩
  | .wrongType v => ⟨tryBlockLogs l, getPredef v⟩
  | .dictId v => ⟨tryBlockLogs l, getPredef v⟩

/-- A configured dictionary identifier is valid exactly when the lookup
yields an aruco dictionary constant (line 146 succeeds and the line-147
type check passes). -/
def isValidDictId : AttrLookup → Bool
  | .dictId _ => true
  | _ => false

/-! ### Claim-side reference definitions

These follow the wording of the specification, to be compared with the
source-shaped definitions above. -/

/-- Truncation toward zero of a rational, as the specification describes
the "native float-to-int truncation": floor for nonnegative values, ceil
for negative ones. -/
def truncTowardZero (v : ℚ) : ℤ := if 0 ≤ v then ⌊v⌋ else ⌈v⌉

/-- The 32-bit two's-complement bit pattern of an integer, as a natural
number below `2^32`. -/
def twos32 (x : ℤ) : ℕ := (x % 2 ^ 32).toNat

/-- The specification's `x & 0xFF`: genuine bitwise AND of the
two's-complement representation with `0xFF`. -/
def spec_and255 (x : ℤ) : ℤ := ((twos32 x &&& 0xFF : ℕ) : ℤ)

/-- The specification's `(x >> 8) & 0xFF`: bitwise right shift of the
two's-complement representation by 8, then AND with `0xFF`.  (The byte
kept here is bits 8-15, which sign extension of an arithmetic shift
cannot touch.) -/
def spec_shr8_and255 (x : ℤ) : ℤ := (((twos32 x >>> 8) &&& 0xFF : ℕ) : ℤ)

/-! ### Helper lemmas -/

theorem nat_and255_eq_mod (n : ℕ) : n &&& 255 = n % 256 := by
  have h := Nat.and_pow_two_sub_one_eq_mod n 8
  norm_num at h
  exact h

theorem np_int32_eq_truncTowardZero (v : ℚ) : np_int32 v = truncTowardZero v := by
  unfold np_int32 truncTowardZero
  rcases le_or_lt 0 v with h | h
  · rw [if_pos h, Rat.floor_def]
    exact Int.tdiv_eq_ediv (Rat.num_nonneg.mpr h) (Int.ofNat_nonneg _)
  · rw [if_neg (not_le.mpr h)]
    have hnum : v.num = -(-v).num := by rw [Rat.neg_num, neg_neg]
    have hden : v.den = (-v).den := (Rat.neg_den v).symm
    rw [hnum, hden, Int.neg_tdiv,
      Int.tdiv_eq_ediv (Rat.num_nonneg.mpr (by linarith)) (Int.ofNat_nonneg _),
      ← Rat.floor_def, Int.floor_neg, neg_neg]

theorem mask8_eq_spec_and255 (x : ℤ) : mask8 x = spec_and255 x := by
  unfold mask8 spec_and255 twos32
  have h32 : (0 : ℤ) ≤ x % 2 ^ 32 := Int.emod_nonneg x (by norm_num)
  obtain ⟨m, hm⟩ : ∃ m : ℕ, (x % 2 ^ 32).toNat = m := ⟨_, rfl⟩
  have hmx : (m : ℤ) = x % 2 ^ 32 := by rw [← hm, Int.toNat_of_nonneg h32]
  rw [hm]
  have h := Nat.and_pow_two_sub_one_eq_mod m 8
  norm_num at h
  rw [show (0xFF : ℕ) = 255 from rfl, h, Int.ofNat_emod, hmx]
  omega

theorem mask8_asr8_eq_spec_shr8_and255 (x : ℤ) :
    mask8 (asr8 x) = spec_shr8_and255 x := by
  unfold mask8 asr8 spec_shr8_and255 twos32
  have h32 : (0 : ℤ) ≤ x % 2 ^ 32 := Int.emod_nonneg x (by norm_num)
  obtain ⟨m, hm⟩ : ∃ m : ℕ, (x % 2 ^ 32).toNat = m := ⟨_, rfl⟩
  have hmx : (m : ℤ) = x % 2 ^ 32 := by rw [← hm, Int.toNat_of_nonneg h32]
  rw [hm]
  have h := Nat.and_pow_two_sub_one_eq_mod (m >>> 8) 8
  norm_num at h
  rw [show (0xFF : ℕ) = 255 from rfl, h, Nat.shiftRight_eq_div_pow]
  have hdiv : ((m / 2 ^ 8 : ℕ) : ℤ) = (x % 2 ^ 32) / 2 ^ 8 := by
    rw [Int.ofNat_tdiv, hmx]
    exact Int.tdiv_eq_ediv h32 (by norm_num)
  rw [Int.ofNat_emod, hdiv]
  norm_num
  omega

theorem wireEvents_length (ps : List Pose) :
    (wireEvents ps).length = 2 * ps.length := by
  induction ps with
  | nil => rfl
  | cons p ps ih => simp [wireEvents, ih]; ring

theorem wireEvents_eq_flatten (acc : List (ℤ × Pose)) :
    wireEvents (acc.map Prod.snd) =
      (acc.map fun d =>
        [Event.canFrame (data_array1 d.2), Event.canFrame (data_array2 d.2)]).flatten := by
  induction acc with
  | nil => rfl
  | cons d ds ih => simp [wireEvents, ih]

/-! ### Claims -/

/-- C1 (counterexample): the quantization is claimed to round, but
`np.int32` truncates toward zero.  At `position.x = 0.019` the code
computes `qx = int32(0.019 * 100) = 1`, while `round(100 * 0.019) =
round(1.9) = 2`. -/
theorem C1_counterexample :
    position_x ⟨19/1000, 0, 0, 0⟩ ≠ round ((100 : ℚ) * (19/1000)) := by
  show np_int32 ((19 : ℚ)/1000 * 100) ≠ round ((100 : ℚ) * (19/1000))
  rw [np_int32_eq_truncTowardZero, truncTowardZero, if_pos (by norm_num), round_eq]
  norm_num

/-- C1 (amended): for every accepted marker's position, the quantized
values are `qx = trunc(100 * position.x)` and
`qz = trunc(100 * position.z)` with truncation toward zero (the
`np.int32` cast): floating-point meters are mapped to signed integer
centimeters with a fixed scale factor of 100 using truncation toward
zero, not rounding. -/
theorem C1_quantization_truncates (p : Pose) :
    position_x p = truncTowardZero (100 * p.px) ∧
    position_z p = truncTowardZero (100 * p.pz) := by
  constructor
  · rw [position_x, np_int32_eq_truncTowardZero, mul_comm]
  · rw [position_z, np_int32_eq_truncTowardZero, mul_comm]

/-- C2: for every signed-integer pair `(qx, qz)`, the emitted position
frame is exactly the 5 bytes `[0x02, (qx >> 8) & 0xFF,
(qx + 128) & 0xFF, ((qz + 128) >> 8) & 0xFF, qz & 0xFF]` (shifts and
masks taken on the two's-complement representation): the `+128` offset
appears in the low byte of `qx` and in the high byte of `qz` but in
neither of the other two payload bytes, and every byte stays in
`[0, 256)` for arbitrarily large or negative inputs — overflow silently
wraps through the masking. -/
theorem C2_positionFrame_bytes (qx qz : ℤ) :
    positionFrame qx qz =
      [0x02, spec_shr8_and255 qx, spec_and255 (qx + 128),
       spec_shr8_and255 (qz + 128), spec_and255 qz] ∧
    (positionFrame qx qz).all (fun b => decide (0 ≤ b) && decide (b < 256)) = true := by
  refine ⟨?_, ?_⟩
  · simp only [positionFrame]
    rw [mask8_asr8_eq_spec_shr8_and255, mask8_asr8_eq_spec_shr8_and255,
      mask8_eq_spec_and255, mask8_eq_spec_and255]
  · simp only [positionFrame, List.all_cons, List.all_nil, Bool.and_eq_true,
      decide_eq_true_eq, mask8, asr8]
    refine ⟨by norm_num, by omega, by omega, by omega, by omega, trivial⟩

/-- C3: for every computed integer angle `yaw_deg`, the emitted
orientation frame is exactly the 5 bytes `[0x03, (yaw_deg >> 8) & 0xFF,
yaw_deg & 0xFF, 0x00, 0x00]`; the last two payload bytes are reserved
and always `0x00`. -/
theorem C3_yawFrame_bytes (r : ℤ) :
    yawFrame r = [0x03, spec_shr8_and255 r, spec_and255 r, 0x00, 0x00] := by
  simp only [yawFrame]
  rw [mask8_asr8_eq_spec_shr8_and255, mask8_eq_spec_and255]

/-- C4 (counterexample): the wire angle is claimed to be
`180 - round(degrees(euler[1]))`, but line 259 applies `np.int32`,
which truncates toward zero.  For a pose whose second Euler component
measures `0.5` degrees the code yields `180 - 0 = 180`, while the claim
demands `180 - round(0.5) = 179`. -/
theorem C4_counterexample :
    yaw_r ⟨0, 0, 0, 1/2⟩ ≠ 180 - round ((1 : ℚ)/2) := by
  show (180 : ℤ) - np_int32 ((1 : ℚ)/2) ≠ 180 - round ((1 : ℚ)/2)
  rw [np_int32_eq_truncTowardZero, truncTowardZero, if_pos (by norm_num), round_eq]
  norm_num

/-- C4 (amended): for every accepted marker's orientation, the wire
angle is computed from the second component of the quaternion's
Euler-angle decomposition, converted to degrees and inverted as
`yaw_deg = 180 - trunc(degrees(euler[1]))`, with truncation toward zero
(the `np.int32` cast) instead of rounding. -/
theorem C4_yaw_inverts_truncated (p : Pose) :
    yaw_r p = 180 - truncTowardZero p.eulerDeg1 := by
  rw [yaw_r, np_int32_eq_truncTowardZero]

/-- C5: for every list of detected marker ids and every configured
allow-list, the line-224 test accepts everything when the allow-list is
empty, and otherwise accepts exactly the detected ids that belong to
the allow-list, preserving detection order (a `filter` of the detected
list). -/
theorem C5_whitelist_filter (wl detected : List ℤ) :
    detected.filter (passesFilter wl) =
      if wl = [] then detected else detected.filter fun i => decide (i ∈ wl) := by
  unfold passesFilter
  rcases wl with _ | ⟨a, as⟩
  · simp
  · simp

/-- C6: for every detection cycle with at least one accepted marker, the
callback's action trace is the detection run followed by the wire
frames followed by the two aggregate publications: the wire part
consists of exactly `2N` CAN frames grouped as `N` ordered
`(position frame, yaw frame)` pairs in detection order with no
interleaving between markers, and every wire frame precedes the
aggregate pose-array and marker-set outputs of the cycle. -/
theorem C6_frame_sequencing (st : NodeState) (ds : List (ℤ × Pose))
    (hinfo : st.infoReceived = true)
    (hne : acceptedOf st.idWhitelist ds ≠ []) :
    ∃ wires : List Event,
      (image_callback st (some ds)).2 =
        Event.detectRun :: wires ++
          [Event.posesPub ((acceptedOf st.idWhitelist ds).map Prod.snd),
           Event.markersPub ((acceptedOf st.idWhitelist ds).map Prod.fst)
             ((acceptedOf st.idWhitelist ds).map Prod.snd)] ∧
      wires =
        ((acceptedOf st.idWhitelist ds).map fun d =>
          [Event.canFrame (data_array1 d.2), Event.canFrame (data_array2 d.2)]).flatten ∧
      wires.length = 2 * (acceptedOf st.idWhitelist ds).length := by
  refine ⟨wireEvents ((acceptedOf st.idWhitelist ds).map Prod.snd), ?_, ?_, ?_⟩
  · have hlen : 0 < (acceptedOf st.idWhitelist ds).length := List.length_pos.mpr hne
    simp [image_callback, hinfo, hlen]
  · exact wireEvents_eq_flatten _
  · rw [wireEvents_length, List.length_map]

/-- Witness for C6: one accepted marker (id 7, empty allow-list) yields
the detect action, its two wire frames, then the two aggregate
publications. -/
theorem C6_frame_sequencing_witness :
    ∃ wires : List Event,
      (image_callback ⟨true, []⟩ (some [(7, ⟨3/10, 1/10, 6/5, 0⟩)])).2 =
        Event.detectRun :: wires ++
          [Event.posesPub ((acceptedOf [] [(7, ⟨3/10, 1/10, 6/5, 0⟩)]).map Prod.snd),
           Event.markersPub ((acceptedOf [] [(7, ⟨3/10, 1/10, 6/5, 0⟩)]).map Prod.fst)
             ((acceptedOf [] [(7, ⟨3/10, 1/10, 6/5, 0⟩)]).map Prod.snd)] ∧
      wires =
        ((acceptedOf [] [(7, ⟨3/10, 1/10, 6/5, 0⟩)]).map fun d =>
          [Event.canFrame (data_array1 d.2), Event.canFrame (data_array2 d.2)]).flatten ∧
      wires.length = 2 * (acceptedOf [] [(7, ⟨3/10, 1/10, 6/5, 0⟩)]).length :=
  C6_frame_sequencing ⟨true, []⟩ [(7, ⟨3/10, 1/10, 6/5, 0⟩)] rfl
    (by simp [acceptedOf, passesFilter])

/-- C7: for every detection cycle in which zero markers are accepted
(no detection result, or no id passing the allow-list), the only
observable action is the detection call itself: no wire frames and no
aggregate outputs are emitted. -/
theorem C7_zero_accepted (st : NodeState) (det : Option (List (ℤ × Pose)))
    (hinfo : st.infoReceived = true)
    (hzero : acceptedOfDet st.idWhitelist det = []) :
    (image_callback st det).2 = [Event.detectRun] := by
  cases det with
  | none => simp [image_callback, hinfo]
  | some ds =>
    have h : acceptedOf st.idWhitelist ds = [] := hzero
    simp [image_callback, hinfo, h]

/-- Witness for C7: marker 5 detected but the allow-list holds only 3,
so nothing is published. -/
theorem C7_zero_accepted_witness :
    (image_callback ⟨true, [3]⟩ (some [(5, ⟨1, 1, 1, 0⟩)])).2 = [Event.detectRun] :=
  C7_zero_accepted ⟨true, [3]⟩ (some [(5, ⟨1, 1, 1, 0⟩)]) rfl
    (by simp [acceptedOfDet, acceptedOf, passesFilter])

/-- C8: for every image arriving before any calibration record, the
whole cycle is skipped: the callback performs no detection, emits no
wire frames and no aggregate outputs, and leaves the state unchanged. -/
theorem C8_missing_calibration (st : NodeState) (det : Option (List (ℤ × Pose)))
    (h : st.infoReceived = false) :
    image_callback st det = (st, []) := by
  simp [image_callback, h]

/-- Witness for C8 at an uncalibrated state. -/
theorem C8_missing_calibration_witness :
    image_callback ⟨false, [3]⟩ (some [(3, ⟨1, 1, 1, 0⟩)]) = (⟨false, [3]⟩, []) :=
  C8_missing_calibration ⟨false, [3]⟩ (some [(3, ⟨1, 1, 1, 0⟩)]) rfl

/-- C9 (counterexample): for an invalid dictionary identifier that names
no `cv2.aruco` attribute, node construction does not complete without
raising — even when every external cv2 call is modelled as succeeding —
because line 175 reads the never-assigned local `dictionary_id` and
raises `UnboundLocalError`. -/
theorem C9_counterexample :
    (arucoInit AttrLookup.absent fun _ => PyResult.ok).result ≠ PyResult.ok := by
  decide

/-- C9 (amended): for every invalid marker-dictionary identifier, the
error and the full list of valid options are logged at startup, but
processing does not continue in a non-crashing state: when the
identifier is not an attribute of `cv2.aruco`, construction then raises
`UnboundLocalError` at the `getPredefinedDictionary` call instead of
completing. -/
theorem C9_invalid_dictionary (l : AttrLookup) (g : ℤ → PyResult)
    (hinv : isValidDictId l = false) :
    (arucoInit l g).logs = [LogMsg.badDictId, LogMsg.validOptions] ∧
    (l = AttrLookup.absent →
      (arucoInit l g).result = PyResult.raises PyError.unboundLocal) := by
  cases l with
  | absent => exact ⟨rfl, fun _ => rfl⟩
  | wrongType v => exact ⟨rfl, fun h => by cases h⟩
  | dictId v => simp [isValidDictId] at hinv

/-- Witness for C9 (amended) at the absent-attribute lookup. -/
theorem C9_invalid_dictionary_witness :
    (arucoInit AttrLookup.absent fun _ => PyResult.ok).logs =
        [LogMsg.badDictId, LogMsg.validOptions] ∧
    (AttrLookup.absent = AttrLookup.absent →
      (arucoInit AttrLookup.absent fun _ => PyResult.ok).result =
        PyResult.raises PyError.unboundLocal) :=
  C9_invalid_dictionary AttrLookup.absent (fun _ => PyResult.ok) rfl

/-- C10: for every orientation whose second Euler component, in
degrees, lies in `[0, 180]` (the image of the library's `[0, π]` range),
the computed wire angle `r = 180 - int32(degrees(euler[1]))` lies in
`[0, 180]`; consequently the yaw frame's high byte is always `0x00` and
the encoded angle never wraps at the `0/360` boundary. -/
theorem C10_yaw_in_range (p : Pose) (h0 : 0 ≤ p.eulerDeg1)
    (h1 : p.eulerDeg1 ≤ 180) :
    0 ≤ yaw_r p ∧ yaw_r p ≤ 180 ∧
      data_array2 p = [0x03, 0, mask8 (yaw_r p), 0x00, 0x00] := by
  have ht : np_int32 p.eulerDeg1 = ⌊p.eulerDeg1⌋ := by
    rw [np_int32_eq_truncTowardZero, truncTowardZero, if_pos h0]
  have hf0 : (0 : ℤ) ≤ ⌊p.eulerDeg1⌋ := Int.floor_nonneg.mpr h0
  have hfq : (⌊p.eulerDeg1⌋ : ℚ) ≤ 180 := le_trans (Int.floor_le _) h1
  have hf1 : ⌊p.eulerDeg1⌋ ≤ 180 := by exact_mod_cast hfq
  have hr0 : 0 ≤ yaw_r p := by rw [yaw_r, ht]; omega
  have hr1 : yaw_r p ≤ 180 := by rw [yaw_r, ht]; omega
  have hb : mask8 (asr8 (yaw_r p)) = 0 := by
    unfold mask8 asr8
    omega
  refine ⟨hr0, hr1, ?_⟩
  simp [data_array2, yawFrame, hb]

/-- Witness for C10 at a pose whose second Euler component measures 90
degrees. -/
theorem C10_yaw_in_range_witness :
    0 ≤ yaw_r ⟨0, 0, 0, 90⟩ ∧ yaw_r ⟨0, 0, 0, 90⟩ ≤ 180 ∧
      data_array2 ⟨0, 0, 0, 90⟩ = [0x03, 0, mask8 (yaw_r ⟨0, 0, 0, 90⟩), 0x00, 0x00] :=
  C10_yaw_in_range ⟨0, 0, 0, 90⟩ (by decide) (by decide)
